import Mathlib

/-!
Shallow embedding of the CulliganIoT client library (package culligan):
the session manager (uniapi_culliganiot.py, class CulliganApi) and the
device layer (culliganiot_device.py, classes CulliganIoTDevice and
CulliganIoTSoftener).  Network responses are passed in as explicit
parameters; datetime.now() is an explicit integer parameter counted in
seconds.  Python exceptions are modelled with an explicit error type and
Except; mutating methods return the post-call credential store together
with their outcome.
-/

namespace Culligan

/-- Exceptions of exc.py together with the builtin Python exceptions the
code can raise: TypeError from an unsupported dict plus str concatenation,
and KeyError from indexing a dictionary at a missing key. -/
inductive Exc where
  | authError (msg : String)
  | notAuthedError
  | authExpiringError
  | typeError
  | keyError (key : String)
  deriving Repr, DecidableEq

/-- JSON scalar values as they appear in response dictionaries. -/
inductive JVal where
  | null
  | bool (b : Bool)
  | int (n : Int)
  | str (s : String)
  deriving Repr, DecidableEq

/-- Python comparison v == True: True itself and the integer 1 compare
equal to True, every other JSON scalar does not. -/
def JVal.pyEqTrue : JVal → Bool
  | .bool b => b
  | .int n => n == 1
  | _ => false

/-- Credential store fields of CulliganApi (uniapi_culliganiot.py,
CulliganApi.__init__).  Expirations are kept as integer timestamps in
seconds; websession records whether an aiohttp session object exists. -/
structure CredState where
  culligan_username : Option String
  culligan_access_token : Option String
  culligan_refresh_token : Option String
  culligan_expiration : Option Int
  ayla_access_token : Option String
  ayla_refresh_token : Option String
  ayla_expiration : Option Int
  ayla_expiration_raw : Option Int
  is_authed : Bool
  websession : Bool
  deriving Repr, DecidableEq

/-- Credential store exactly as CulliganApi.__init__ leaves it. -/
def initCredState (hasSession : Bool) : CredState :=
  ⟨none, none, none, none, none, none, none, none, false, hasSession⟩

/-- Outcome of a method call on the session manager: the post-call state
of the credential store together with a returned value or a raised
exception. -/
structure MResult (α : Type) where
  state : CredState
  out : Except Exc α

/-- Fields of the linkedAccounts ayla object of a login response. -/
structure LinkedAyla where
  access_token : String
  refresh_token : String
  expires_in : Int
  deriving Repr, DecidableEq

/-- Fields of the data envelope of a login response. -/
structure LoginData where
  userId : String
  accessToken : String
  refreshToken : String
  expiresIn : Int
  ayla : LinkedAyla
  deriving Repr, DecidableEq

/-- Body of a sign-in or refresh response: the message of the error
envelope, and the data envelope when the key data is present in the
body. -/
structure LoginResult where
  errorMessage : String
  data : Option LoginData
  deriving Repr, DecidableEq

/-- CulliganApi._set_credentials.  On status 404, 401 or 422 the method
raises CulliganAuthError built from the error message of the body, before
any field is assigned.  When the key data is absent, the source evaluates
login_result + "Something unexpected happened ...", adding a dict and a
str, which raises TypeError before the intended CulliganAuthError can be
constructed.  Otherwise every credential field is assigned and is_authed
becomes the test status_code == 200. -/
def set_credentials (now : Int) (s : CredState) (status_code : Int)
    (login_result : LoginResult) : MResult Unit :=
  if status_code = 404 then
    ⟨s, .error (.authError (login_result.errorMessage ++ " (Confirm login information is correct)"))⟩
  else if status_code = 401 then
    ⟨s, .error (.authError login_result.errorMessage)⟩
  else if status_code = 422 then
    ⟨s, .error (.authError (login_result.errorMessage ++ " (Confirm login information is correct, username should be an email address.)"))⟩
  else
    match login_result.data with
    | none => ⟨s, .error .typeError⟩
    | some d =>
      ⟨{ s with
          culligan_username := some d.userId,
          culligan_access_token := some d.accessToken,
          culligan_refresh_token := some d.refreshToken,
          culligan_expiration := some (now + d.expiresIn),
          ayla_access_token := some d.ayla.access_token,
          ayla_refresh_token := some d.ayla.refresh_token,
          ayla_expiration := some (now + d.ayla.expires_in),
          ayla_expiration_raw := some d.ayla.expires_in,
          is_authed := status_code == 200 }, .ok ()⟩

/-- CulliganApi.sign_in: the POST to /auth/login is external, so the
response (status code and parsed body) is a parameter; the method then
updates the credential store through _set_credentials. -/
def sign_in (now : Int) (s : CredState) (status_code : Int)
    (resp : LoginResult) : MResult Unit :=
  set_credentials now s status_code resp

/-- CulliganApi.refresh_auth: the PUT to /auth/login is external, so the
response is a parameter; the method then updates the credential store
through _set_credentials. -/
def refresh_auth (now : Int) (s : CredState) (status_code : Int)
    (resp : LoginResult) : MResult Unit :=
  set_credentials now s status_code resp

/-- CulliganApi._clear_auth: resets is_authed, both culligan tokens, the
culligan expiration, both ayla tokens, the ayla expiration and the
websession.  It does not touch culligan_username or ayla_expiration_raw. -/
def clear_auth (s : CredState) : CredState :=
  { s with
      is_authed := false,
      culligan_access_token := none,
      culligan_refresh_token := none,
      culligan_expiration := none,
      ayla_access_token := none,
      ayla_refresh_token := none,
      ayla_expiration := none,
      websession := false }

/-- CulliganApi.sign_out: delegates to _clear_auth, with no network
call. -/
def sign_out (s : CredState) : CredState := clear_auth s

/-- CulliganApi.ensure_session: creates the aiohttp session when it is
absent. -/
def ensure_session (s : CredState) : CredState := { s with websession := true }

/-- CulliganApi.async_sign_out: ensures a session; both the post and the
call to _clear_auth are commented out in the source, so every credential
field is left untouched. -/
def async_sign_out (s : CredState) : CredState := ensure_session s

/-- Python truthiness of an Optional str: None and the empty string are
falsy. -/
def pyFalsyStr : Option String → Bool
  | none => true
  | some t => t.isEmpty

/-- Property CulliganApi.auth_expiration: None when not authed; raises
CulliganNotAuthedError when authed with no recorded expiration; the
recorded expiration otherwise. -/
def auth_expiration (s : CredState) : Except Exc (Option Int) :=
  if !s.is_authed then .ok none
  else
    match s.culligan_expiration with
    | none => .error .notAuthedError
    | some e => .ok (some e)

/-- Property CulliganApi.token_expired: true when auth_expiration is None
or when now is strictly past it. -/
def token_expired (now : Int) (s : CredState) : Except Exc Bool :=
  match auth_expiration s with
  | .error e => .error e
  | .ok none => .ok true
  | .ok (some e) => .ok (decide (e < now))

/-- Property CulliganApi.token_expiring_soon: true when auth_expiration is
None or when now is strictly past it minus the 600 second lookahead. -/
def token_expiring_soon (now : Int) (s : CredState) : Except Exc Bool :=
  match auth_expiration s with
  | .error e => .error e
  | .ok none => .ok true
  | .ok (some e) => .ok (decide (e - 600 < now))

/-- CulliganApi.check_auth.  The condition of the first branch is
evaluated left to right with Python short-circuiting: a falsy access token
or a false is_authed flag reaches the raise of CulliganNotAuthedError
after the assignment is_authed = False; otherwise token_expired is
evaluated, and an exception raised inside it (the invalid-state raise of
auth_expiration) propagates without any assignment.  When the token is
expired, is_authed is set to False and CulliganNotAuthedError is raised.
Otherwise, when raise_expiring_soon is set and the token expires soon,
CulliganAuthExpiringError is raised with no assignment. -/
def check_auth (now : Int) (raise_expiring_soon : Bool) (s : CredState) :
    MResult Unit :=
  if pyFalsyStr s.culligan_access_token || !s.is_authed then
    ⟨{ s with is_authed := false }, .error .notAuthedError⟩
  else
    match token_expired now s with
    | .error e => ⟨s, .error e⟩
    | .ok true => ⟨{ s with is_authed := false }, .error .notAuthedError⟩
    | .ok false =>
      if raise_expiring_soon then
        match token_expiring_soon now s with
        | .error e => ⟨s, .error e⟩
        | .ok true => ⟨s, .error .authExpiringError⟩
        | .ok false => ⟨s, .ok ()⟩
      else ⟨s, .ok ()⟩

/-- Python dict.update merge on string-keyed header dictionaries read
through lookup: every entry of upd overwrites the entry of base at the
same key, other entries of base survive. -/
def dictUpdate (base upd : String → Option String) : String → Option String :=
  fun k =>
    match upd k with
    | some v => some v
    | none => base k

/-- Property CulliganApi.auth_header: calls check_auth with its default
raise_expiring_soon = True, then returns the single-entry mapping of
Authorization to the word Bearer followed by the stored access token. -/
def auth_header (now : Int) (s : CredState) : MResult (String → Option String) :=
  let c := check_auth now true s
  match c.out with
  | .error e => ⟨c.state, .error e⟩
  | .ok _ =>
    ⟨c.state, .ok (fun k =>
      if k = "Authorization" then
        some ("Bearer " ++ s.culligan_access_token.getD "")
      else none)⟩

/-- CulliganApi._get_headers: takes the caller-supplied headers out of the
keyword arguments (an empty dict when absent) and updates them with
auth_header, so the auth entry wins on a key collision. -/
def get_headers (now : Int) (s : CredState)
    (caller : Option (String → Option String)) :
    MResult (String → Option String) :=
  let base := caller.getD (fun _ => none)
  let a := auth_header now s
  match a.out with
  | .error e => ⟨a.state, .error e⟩
  | .ok ah => ⟨a.state, .ok (dictUpdate base ah)⟩

/-- Python dictionary write d[k] = v on an association list: overwrite in
place when the key exists, append otherwise. -/
def dictInsert (d : List (String × JVal)) (k : String) (v : JVal) :
    List (String × JVal) :=
  if d.any (fun p => p.1 == k) then
    d.map (fun p => if p.1 == k then (k, v) else p)
  else d ++ [(k, v)]

/-- Structurally valid body of the device data endpoint: the flat
dictionary found under data and datapoints. -/
structure DeviceDataResponse where
  datapoints : List (String × JVal)
  deriving Repr, DecidableEq

/-- CulliganIoTDevice._do_update: on a full update the property dictionary
is wiped, then every datapoint key of the response is written into it; the
method returns True. -/
def do_update (full_update : Bool) (props : List (String × JVal))
    (resp : DeviceDataResponse) : Bool × List (String × JVal) :=
  let base := if full_update then [] else props
  (true, resp.datapoints.foldl (fun d p => dictInsert d p.1 p.2) base)

/-- CulliganIoTDevice.update: fetches the device data scoped to the serial
number (the response is a parameter) and calls _do_update with
full_update = True. -/
def device_update (props : List (String × JVal)) (resp : DeviceDataResponse) :
    Bool × List (String × JVal) :=
  do_update true props resp

/-- Parameters object of a command payload. -/
structure CommandParams where
  active : Int
  duration : Option Int
  deriving Repr, DecidableEq

/-- Request descriptor built by set_command_payload. -/
structure CommandPayload where
  command : String
  serialNumber : String
  protocolVersion : Int
  params : Option CommandParams
  deriving Repr, DecidableEq

/-- Command whitelist installed by CulliganIoTSoftener.__init__. -/
def softener_commands : List String :=
  ["telemetry.get", "awayMode.set", "bypass.timed.on", "bypass.permanent.on", "bypass.off"]

/-- CulliganIoTDevice.set_command_payload: None (the implicit return of
the Python function) when the command is not in the whitelist of the
device; otherwise the descriptor with protocolVersion 1, params omitted
for telemetry.get, params.active as int(active) for the rest, and
params.duration added only for bypass.timed.on. -/
def set_command_payload (commands : List String) (serial : String)
    (command : String) (active : Bool) (duration : Int) :
    Option CommandPayload :=
  if command ∈ commands then
    some
      { command := command,
        serialNumber := serial,
        protocolVersion := 1,
        params :=
          if command = "telemetry.get" then none
          else
            some
              { active := if active then 1 else 0,
                duration := if command = "bypass.timed.on" then some duration else none } }
  else none

/-- Shared response interpretation of the softener command helpers such as
get_telemetry: a transport or auth failure propagates as the exception; on
a body, the dictionary is indexed at success, so a missing key raises
KeyError; otherwise the returned Bool is the Python comparison of the
value with True. -/
def command_result (resp : Except Exc (List (String × JVal))) :
    Except Exc Bool :=
  match resp with
  | .error e => .error e
  | .ok json =>
    match json.lookup "success" with
    | none => .error (.keyError "success")
    | some v => .ok v.pyEqTrue

/-- CulliganIoTSoftener.get_telemetry: posts the telemetry.get payload
built by set_command_payload (with active True and the default duration
60) and interprets the response. -/
def get_telemetry (serial : String)
    (resp : Except Exc (List (String × JVal))) :
    Option CommandPayload × Except Exc Bool :=
  (set_command_payload softener_commands serial "telemetry.get" true 60,
   command_result resp)

/-- CulliganIoTSoftener.start_bypass_timed_mode: posts the bypass.timed.on
payload with the given duration and interprets the response. -/
def start_bypass_timed_mode (serial : String) (duration : Int)
    (resp : Except Exc (List (String × JVal))) :
    Option CommandPayload × Except Exc Bool :=
  (set_command_payload softener_commands serial "bypass.timed.on" true duration,
   command_result resp)

/-- CulliganIoTSoftener.async_start_bypass_timed_mode: the source passes
bypass.permanent.on, not bypass.timed.on, to set_command_payload, and
interprets the response the same way. -/
def async_start_bypass_timed_mode (serial : String) (duration : Int)
    (resp : Except Exc (List (String × JVal))) :
    Option CommandPayload × Except Exc Bool :=
  (set_command_payload softener_commands serial "bypass.permanent.on" true duration,
   command_result resp)

end Culligan

namespace Culligan

/-- C2: on status 401 the sign-in raises CulliganAuthError carrying the
server message and leaves every credential field as it was; on 404 the
message gains the confirm-login suffix; but at a success body with no data
envelope the source adds the response dict to a str, raising TypeError
instead of the intended CulliganAuthError. -/
theorem sign_in_error_envelope_bug :
    (sign_in 0 (⟨some "u", some "tok", some "r", some 1000, some "a", some "b", some 9, some 9, true, true⟩ : CredState) 401 ⟨"Unauthorized", none⟩
      = ⟨⟨some "u", some "tok", some "r", some 1000, some "a", some "b", some 9, some 9, true, true⟩, .error (.authError "Unauthorized")⟩) ∧
    (sign_in 0 (initCredState false) 404 ⟨"Not found", none⟩
      = ⟨initCredState false, .error (.authError "Not found (Confirm login information is correct)")⟩) ∧
    (sign_in 0 (initCredState false) 200 ⟨"", none⟩
      = ⟨initCredState false, .error .typeError⟩) :=
  ⟨rfl, rfl, rfl⟩

/-- C4 counterexample: a refresh that fails with status 401 on a session
in the Authenticated state leaves is_authed true; it does not move the
session to Unauthenticated as the state machine of the spec says. -/
theorem refresh_auth_failed_still_authed :
    (refresh_auth 0 (⟨some "u", some "tok", some "r", some 1000, some "a", some "b", some 9, some 9, true, true⟩ : CredState) 401 ⟨"Session expired", none⟩).state.is_authed = true :=
  rfl

/-- C4 amended: a sign-in or refresh response with status 401, 404 or 422
raises CulliganAuthError and leaves the whole credential store, the
is_authed flag included, exactly as it was before the call: an
authenticated session stays flagged authenticated rather than moving to
Unauthenticated. -/
theorem refresh_auth_failure_preserves_state (now : Int) (s : CredState)
    (status : Int) (r : LoginResult)
    (h : status = 401 ∨ status = 404 ∨ status = 422) :
    (refresh_auth now s status r).state = s ∧
    (sign_in now s status r).state = s ∧
    ∃ m, (refresh_auth now s status r).out = .error (.authError m) := by
  rcases h with h | h | h <;> subst h <;> exact ⟨rfl, rfl, ⟨_, rfl⟩⟩

/-- C4 witness: the amended statement at a concrete authenticated store
and a concrete 401 refresh response. -/
theorem refresh_auth_failure_preserves_state_witness :
    (refresh_auth 0 (⟨some "u", some "tok", some "r", some 1000, some "a", some "b", some 9, some 9, true, true⟩ : CredState) 401 ⟨"Session expired", none⟩).state
      = ⟨some "u", some "tok", some "r", some 1000, some "a", some "b", some 9, some 9, true, true⟩ ∧
    (sign_in 0 (⟨some "u", some "tok", some "r", some 1000, some "a", some "b", some 9, some 9, true, true⟩ : CredState) 401 ⟨"Session expired", none⟩).state
      = ⟨some "u", some "tok", some "r", some 1000, some "a", some "b", some 9, some 9, true, true⟩ ∧
    ∃ m, (refresh_auth 0 (⟨some "u", some "tok", some "r", some 1000, some "a", some "b", some 9, some 9, true, true⟩ : CredState) 401 ⟨"Session expired", none⟩).out
      = .error (.authError m) :=
  refresh_auth_failure_preserves_state 0
    ⟨some "u", some "tok", some "r", some 1000, some "a", some "b", some 9, some 9, true, true⟩
    401 ⟨"Session expired", none⟩ (Or.inl rfl)

/-- C5: the two call surfaces diverge.  With serial S and duration 30
the synchronous start_bypass_timed_mode builds the bypass.timed.on payload
with params.duration = 30 while the asynchronous variant builds a
bypass.permanent.on payload with no duration; and on a populated store
sign_out clears the credentials while async_sign_out keeps them all. -/
theorem async_surface_divergence :
    (start_bypass_timed_mode "S" 30 (.ok [("success", .bool true)])
      = (some ⟨"bypass.timed.on", "S", 1, some ⟨1, some 30⟩⟩, .ok true)) ∧
    (async_start_bypass_timed_mode "S" 30 (.ok [("success", .bool true)])
      = (some ⟨"bypass.permanent.on", "S", 1, some ⟨1, none⟩⟩, .ok true)) ∧
    (sign_out ⟨some "u", some "tok", some "r", some 9, some "x", some "y", some 9, some 9, true, false⟩
      = ⟨some "u", none, none, none, none, none, none, some 9, false, false⟩) ∧
    (async_sign_out ⟨some "u", some "tok", some "r", some 9, some "x", some "y", some 9, some 9, true, false⟩
      = ⟨some "u", some "tok", some "r", some 9, some "x", some "y", some 9, some 9, true, true⟩) :=
  ⟨rfl, rfl, rfl, rfl⟩

/-- C6 counterexample: sign_out on a populated credential store retains
the stored user identifier and the raw-seconds linked expiry, which the
claim says are reset to empty. -/
theorem sign_out_retains_fields :
    (sign_out ⟨some "user", some "tok", some "r", some 9, some "x", some "y", some 9, some 3600, true, true⟩).culligan_username = some "user" ∧
    (sign_out ⟨some "user", some "tok", some "r", some 9, some "x", some "y", some 9, some 3600, true, true⟩).ayla_expiration_raw = some 3600 :=
  ⟨rfl, rfl⟩

/-- C6 amended: sign_out needs no network call and clears the
authenticated flag, both access tokens, both refresh tokens, both expiry
timestamps and the websession, but it retains the stored user identifier
and the raw-seconds linked expiry unchanged. -/
theorem sign_out_clears_store (s : CredState) :
    (sign_out s).is_authed = false ∧
    (sign_out s).culligan_access_token = none ∧
    (sign_out s).culligan_refresh_token = none ∧
    (sign_out s).culligan_expiration = none ∧
    (sign_out s).ayla_access_token = none ∧
    (sign_out s).ayla_refresh_token = none ∧
    (sign_out s).ayla_expiration = none ∧
    (sign_out s).websession = false ∧
    (sign_out s).culligan_username = s.culligan_username ∧
    (sign_out s).ayla_expiration_raw = s.ayla_expiration_raw :=
  ⟨rfl, rfl, rfl, rfl, rfl, rfl, rfl, rfl, rfl, rfl⟩

/-- C1 counterexample: with a token still valid but inside the 600 second
expiry window (expiry at now + 500), auth_header raises
CulliganAuthExpiringError: it calls check_auth in its default
expiring-soon mode, not in hard-fail mode as the claim states. -/
theorem auth_header_expiring_window :
    (auth_header 0 ⟨some "u", some "tok", some "r", some 500, none, none, none, none, true, false⟩).out
      = .error .authExpiringError :=
  rfl

end Culligan

namespace Culligan

/-- C7: for a session holding a recorded expiry, check_auth in
expiring-soon mode raises CulliganAuthExpiringError exactly when the token
expires within 600 seconds of now but has not yet expired, raises
CulliganNotAuthedError exactly when the expiry has already passed, and
succeeds exactly when the expiry is at least 600 seconds away; with a
falsy access token or a false authenticated flag it raises
CulliganNotAuthedError. -/
theorem check_auth_classification (now e : Int) (s : CredState)
    (he : s.culligan_expiration = some e) :
    ((pyFalsyStr s.culligan_access_token = false ∧ s.is_authed = true) →
      (((check_auth now true s).out = .error .authExpiringError) ↔ (e - 600 < now ∧ now ≤ e)) ∧
      (((check_auth now true s).out = .error .notAuthedError) ↔ e < now) ∧
      (((check_auth now true s).out = .ok ()) ↔ now ≤ e - 600)) ∧
    ((pyFalsyStr s.culligan_access_token = true ∨ s.is_authed = false) →
      (check_auth now true s).out = .error .notAuthedError) := by
  constructor
  · rintro ⟨h1, h2⟩
    by_cases hexp : e < now
    · have hA : check_auth now true s
          = ⟨{ s with is_authed := false }, .error .notAuthedError⟩ := by
        simp [check_auth, token_expired, auth_expiration, h1, h2, he, hexp]
      rw [hA]
      refine ⟨?_, ?_, ?_⟩ <;> simp <;> omega
    · by_cases hsoon : e - 600 < now
      · have hB : check_auth now true s = ⟨s, .error .authExpiringError⟩ := by
          simp [check_auth, token_expired, token_expiring_soon, auth_expiration,
            h1, h2, he, hexp, hsoon]
        rw [hB]
        refine ⟨?_, ?_, ?_⟩ <;> simp <;> omega
      · have hC : check_auth now true s = ⟨s, .ok ()⟩ := by
          simp [check_auth, token_expired, token_expiring_soon, auth_expiration,
            h1, h2, he, hexp, hsoon]
        rw [hC]
        refine ⟨?_, ?_, ?_⟩ <;> simp <;> omega
  · rintro (h1 | h2)
    · simp [check_auth, h1]
    · simp [check_auth, h2]

/-- C7 witness: with the expiry at now + 500 the check raises
CulliganAuthExpiringError, with the expiry at now + 900 it succeeds. -/
theorem check_auth_classification_witness :
    (check_auth 0 true ⟨some "u", some "tok", some "r", some 500, none, none, none, none, true, false⟩).out
      = .error .authExpiringError ∧
    (check_auth 0 true ⟨some "u", some "tok", some "r", some 900, none, none, none, none, true, false⟩).out
      = .ok () :=
  ⟨((check_auth_classification 0 500
      ⟨some "u", some "tok", some "r", some 500, none, none, none, none, true, false⟩ rfl).1
      ⟨rfl, rfl⟩).1.mpr (by constructor <;> decide),
   ((check_auth_classification 0 900
      ⟨some "u", some "tok", some "r", some 900, none, none, none, none, true, false⟩ rfl).1
      ⟨rfl, rfl⟩).2.2.mpr (by decide)⟩

/-- C10 counterexample: in the state flagged authenticated with an access
token present but no recorded expiration, check_auth raises
CulliganNotAuthedError (propagated out of the auth_expiration property)
and the authenticated flag is left true, so not every NotAuthedError exit
performs the mutation the claim describes. -/
theorem check_auth_invalid_state_no_mutation :
    (check_auth 0 true ⟨none, some "tok", none, none, none, none, none, none, true, false⟩).out
      = .error .notAuthedError ∧
    (check_auth 0 true ⟨none, some "tok", none, none, none, none, none, none, true, false⟩).state.is_authed
      = true :=
  ⟨rfl, rfl⟩

/-- C10 amended: check_auth is not a pure check.  When it raises
CulliganNotAuthedError because the access token is falsy, the
authenticated flag is false, or a recorded expiry has passed, it first
sets is_authed to false and changes no other field; in the one remaining
error state (flagged authenticated, token present, no recorded expiry)
the CulliganNotAuthedError of auth_expiration propagates with no mutation
at all; and whenever it raises CulliganAuthExpiringError or succeeds, the
state is unchanged. -/
theorem check_auth_frame (now : Int) (soon : Bool) (s : CredState) :
    ((pyFalsyStr s.culligan_access_token = true ∨ s.is_authed = false ∨
        (∃ e, s.culligan_expiration = some e ∧ e < now)) →
      check_auth now soon s = ⟨{ s with is_authed := false }, .error .notAuthedError⟩) ∧
    ((pyFalsyStr s.culligan_access_token = false ∧ s.is_authed = true ∧
        s.culligan_expiration = none) →
      check_auth now soon s = ⟨s, .error .notAuthedError⟩) ∧
    (((check_auth now soon s).out = .error .authExpiringError ∨
        (check_auth now soon s).out = .ok ()) →
      (check_auth now soon s).state = s) := by
  refine ⟨?_, ?_, ?_⟩
  · intro h
    by_cases h1 : pyFalsyStr s.culligan_access_token = true
    · simp [check_auth, h1]
    · by_cases h2 : s.is_authed = true
      · rcases h with h | h | ⟨e, he, hlt⟩
        · exact absurd h h1
        · rw [h2] at h; exact absurd h (by simp)
        · simp [check_auth, token_expired, auth_expiration,
            eq_false_of_ne_true h1, h2, he, hlt]
      · simp [check_auth, eq_false_of_ne_true h2]
  · rintro ⟨h1, h2, h3⟩
    simp [check_auth, token_expired, auth_expiration, h1, h2, h3]
  · intro h
    by_cases h1 : (pyFalsyStr s.culligan_access_token || !s.is_authed) = true
    · rw [check_auth, if_pos h1] at h
      rcases h with h | h <;> exact absurd h (by simp)
    · rw [check_auth, if_neg h1] at h ⊢
      cases hte : token_expired now s with
      | error e => rfl
      | ok b =>
        cases b with
        | true =>
          rw [hte] at h
          rcases h with h | h
          · exact Exc.noConfusion (Except.error.inj h)
          · exact Except.noConfusion h
        | false =>
          cases soon with
          | false => rfl
          | true =>
            cases hts : token_expiring_soon now s with
            | error e => rfl
            | ok b2 => cases b2 <;> rfl

/-- C10 witness: the amended statement applied at a concrete expired
session: the flag is cleared, everything else survives, and
CulliganNotAuthedError is raised. -/
theorem check_auth_frame_witness :
    check_auth 10 true ⟨some "u", some "tok", some "r", some 5, some "a", some "b", some 9, some 9, true, true⟩
      = ⟨⟨some "u", some "tok", some "r", some 5, some "a", some "b", some 9, some 9, false, true⟩, .error .notAuthedError⟩ :=
  (check_auth_frame 10 true
    ⟨some "u", some "tok", some "r", some 5, some "a", some "b", some 9, some 9, true, true⟩).1
    (Or.inr (Or.inr ⟨5, rfl, by decide⟩))

/-- C1 amended: auth_header calls check_auth in its default expiring-soon
mode, so a valid token inside the 600 second window raises
CulliganAuthExpiringError; when the check succeeds, the returned mapping
has the single entry binding Authorization to the word Bearer followed by
exactly the stored access token; and _get_headers merges caller-supplied
headers with it, the auth entry winning on a key collision while every
other caller entry survives. -/
theorem auth_header_contract (now : Int) (s : CredState) (tok : String)
    (htok : s.culligan_access_token = some tok)
    (caller : String → Option String) (k : String) :
    ((check_auth now true s).out = .ok () →
      ∃ f, (auth_header now s).out = .ok f ∧
        f "Authorization" = some ("Bearer " ++ tok) ∧
        ∀ k2, k2 ≠ "Authorization" → f k2 = none) ∧
    ((check_auth now true s).out = .error .authExpiringError →
      (auth_header now s).out = .error .authExpiringError) ∧
    ((check_auth now true s).out = .ok () →
      ∃ g, (get_headers now s (some caller)).out = .ok g ∧
        g "Authorization" = some ("Bearer " ++ tok) ∧
        (k ≠ "Authorization" → g k = caller k)) := by
  refine ⟨?_, ?_, ?_⟩
  · intro hok
    refine ⟨fun k2 => if k2 = "Authorization" then
        some ("Bearer " ++ s.culligan_access_token.getD "") else none, ?_, ?_, ?_⟩
    · simp [auth_header, hok]
    · simp [htok]
    · intro k2 hk2; simp [hk2]
  · intro herr
    simp [auth_header, herr]
  · intro hok
    refine ⟨dictUpdate caller (fun k2 => if k2 = "Authorization" then
        some ("Bearer " ++ s.culligan_access_token.getD "") else none), ?_, ?_, ?_⟩
    · simp [get_headers, auth_header, hok]
    · simp [dictUpdate, htok]
    · intro hk; simp [dictUpdate, hk]

/-- C1 witness: the amended contract at a concrete healthy session and a
caller header dictionary that collides on Authorization. -/
theorem auth_header_contract_witness :
    (∃ f, (auth_header 0 ⟨some "u", some "tok", some "r", some 10000, none, none, none, none, true, false⟩).out = .ok f ∧
      f "Authorization" = some ("Bearer " ++ "tok") ∧
      ∀ k2, k2 ≠ "Authorization" → f k2 = none) ∧
    (∃ g, (get_headers 0 ⟨some "u", some "tok", some "r", some 10000, none, none, none, none, true, false⟩
        (some (fun k2 => if k2 = "Authorization" then some "old" else if k2 = "X" then some "y" else none))).out = .ok g ∧
      g "Authorization" = some ("Bearer " ++ "tok") ∧
      ("X" ≠ "Authorization" →
        g "X" = (fun k2 => if k2 = "Authorization" then some "old" else if k2 = "X" then some "y" else none) "X")) :=
  ⟨(auth_header_contract 0
      ⟨some "u", some "tok", some "r", some 10000, none, none, none, none, true, false⟩ "tok" rfl
      (fun k2 => if k2 = "Authorization" then some "old" else if k2 = "X" then some "y" else none) "X").1 rfl,
   (auth_header_contract 0
      ⟨some "u", some "tok", some "r", some 10000, none, none, none, none, true, false⟩ "tok" rfl
      (fun k2 => if k2 = "Authorization" then some "old" else if k2 = "X" then some "y" else none) "X").2.2 rfl⟩

end Culligan

namespace Culligan

/-- Helper: the key test of dictInsert agrees with membership in the list
of first components. -/
theorem dictInsert_key_test (d : List (String × JVal)) (k : String) :
    (d.any (fun p => p.1 == k)) = true ↔ k ∈ d.map Prod.fst := by
  simp [List.any_eq_true, List.mem_map]

/-- Helper: writing an absent key appends the pair. -/
theorem dictInsert_of_not_mem (d : List (String × JVal)) (k : String) (v : JVal)
    (h : k ∉ d.map Prod.fst) : dictInsert d k v = d ++ [(k, v)] := by
  rw [dictInsert, if_neg]
  intro hc
  exact h ((dictInsert_key_test d k).mp hc)

/-- Helper: folding dictInsert over pairs whose keys are fresh for the
accumulator and mutually distinct appends them in order. -/
theorem foldl_dictInsert_nodup (rest : List (String × JVal)) :
    ∀ d : List (String × JVal), ((d ++ rest).map Prod.fst).Nodup →
      rest.foldl (fun acc p => dictInsert acc p.1 p.2) d = d ++ rest := by
  induction rest with
  | nil => intro d _; simp
  | cons p tl ih =>
    intro d h
    have hmap : ((d ++ p :: tl).map Prod.fst)
        = d.map Prod.fst ++ p.1 :: tl.map Prod.fst := by simp
    rw [hmap] at h
    rcases List.nodup_append.mp h with ⟨_, _, hdisj⟩
    have hfresh : p.1 ∉ d.map Prod.fst := by
      intro hc
      exact hdisj hc (List.mem_cons_self p.1 (tl.map Prod.fst))
    have hstep : dictInsert d p.1 p.2 = d ++ [p] := by
      rw [dictInsert_of_not_mem d p.1 p.2 hfresh]
    calc (p :: tl).foldl (fun acc q => dictInsert acc q.1 q.2) d
        = tl.foldl (fun acc q => dictInsert acc q.1 q.2) (dictInsert d p.1 p.2) := rfl
      _ = tl.foldl (fun acc q => dictInsert acc q.1 q.2) (d ++ [p]) := by rw [hstep]
      _ = (d ++ [p]) ++ tl := by
            refine ih (d ++ [p]) ?_
            have : (d ++ [p]) ++ tl = d ++ p :: tl := by simp
            rw [this, hmap]
            exact h
      _ = d ++ p :: tl := by simp

/-- Helper: lookup misses every key absent from the list of first
components. -/
theorem lookup_eq_none_of_not_mem (d : List (String × JVal)) (k : String)
    (h : k ∉ d.map Prod.fst) : d.lookup k = none := by
  induction d with
  | nil => rfl
  | cons p tl ih =>
    simp only [List.map_cons, List.mem_cons] at h
    push_neg at h
    rw [List.lookup]
    rw [show (k == p.1) = false from by simp [h.1]]
    exact ih h.2

/-- C3: with structurally valid responses holding unique datapoint keys,
an update returns true and replaces the whole property dictionary: after
two consecutive updates the properties equal exactly the second snapshot,
and a key present after the first update but absent from the second
snapshot is absent afterwards. -/
theorem device_update_full_replace
    (p0 : List (String × JVal)) (r1 r2 : DeviceDataResponse) (k : String)
    (h2 : (r2.datapoints.map Prod.fst).Nodup)
    (_hk1 : k ∈ ((device_update p0 r1).2).map Prod.fst)
    (hk2 : k ∉ r2.datapoints.map Prod.fst) :
    (device_update (device_update p0 r1).2 r2).1 = true ∧
    (device_update (device_update p0 r1).2 r2).2 = r2.datapoints ∧
    ((device_update (device_update p0 r1).2 r2).2).lookup k = none := by
  have hrep : (device_update (device_update p0 r1).2 r2).2 = r2.datapoints := by
    have := foldl_dictInsert_nodup r2.datapoints [] (by simpa using h2)
    simpa [device_update, do_update] using this
  exact ⟨rfl, hrep, by rw [hrep]; exact lookup_eq_none_of_not_mem _ _ hk2⟩

/-- C3 witness: the snapshot [a, b] followed by the snapshot [b] leaves
exactly [b]: the update returns true and key a is gone. -/
theorem device_update_full_replace_witness :
    (device_update (device_update [] ⟨[("a", .int 1), ("b", .int 2)]⟩).2 ⟨[("b", .int 3)]⟩).1 = true ∧
    (device_update (device_update [] ⟨[("a", .int 1), ("b", .int 2)]⟩).2 ⟨[("b", .int 3)]⟩).2
      = [("b", .int 3)] ∧
    ((device_update (device_update [] ⟨[("a", .int 1), ("b", .int 2)]⟩).2 ⟨[("b", .int 3)]⟩).2).lookup "a"
      = none :=
  device_update_full_replace [] ⟨[("a", .int 1), ("b", .int 2)]⟩ ⟨[("b", .int 3)]⟩ "a"
    (by decide) (by decide) (by decide)

/-- C8: set_command_payload on the softener whitelist: an unlisted command
yields None (the implicit Python return); telemetry.get yields the
descriptor with protocolVersion 1 and no params at all; every other
whitelisted command carries params.active as int(active), together with
params.duration exactly when the command is bypass.timed.on. -/
theorem set_command_payload_spec (serial command : String) (active : Bool)
    (duration : Int) :
    (command ∉ softener_commands →
      set_command_payload softener_commands serial command active duration = none) ∧
    (set_command_payload softener_commands serial "telemetry.get" active duration
      = some ⟨"telemetry.get", serial, 1, none⟩) ∧
    (command ∈ softener_commands → command ≠ "telemetry.get" →
      set_command_payload softener_commands serial command active duration
        = some ⟨command, serial, 1,
            some ⟨if active then 1 else 0,
                  if command = "bypass.timed.on" then some duration else none⟩⟩) := by
  refine ⟨?_, ?_, ?_⟩
  · intro h; simp [set_command_payload, h]
  · simp [set_command_payload, softener_commands]
  · intro hmem hne; simp [set_command_payload, hmem, hne]

/-- C8 witness: the spec examples: bypass.timed.on with duration 45 gets
params active 1 and duration 45, telemetry.get gets no params, an unknown
command gets None. -/
theorem set_command_payload_spec_witness :
    (set_command_payload softener_commands "S" "not.a.command" true 60 = none) ∧
    (set_command_payload softener_commands "S" "telemetry.get" true 60
      = some ⟨"telemetry.get", "S", 1, none⟩) ∧
    (set_command_payload softener_commands "S" "bypass.timed.on" true 45
      = some ⟨"bypass.timed.on", "S", 1, some ⟨1, some 45⟩⟩) :=
  ⟨(set_command_payload_spec "S" "not.a.command" true 60).1 (by decide),
   (set_command_payload_spec "S" "telemetry.get" true 60).2.1,
   by
     have h := (set_command_payload_spec "S" "bypass.timed.on" true 45).2.2
       (by decide) (by decide)
     simpa using h⟩

/-- C9 counterexample: a structurally valid response body without the
success key makes get_telemetry raise KeyError, not return false as the
claim states for an absent success value. -/
theorem get_telemetry_missing_success :
    (get_telemetry "S" (.ok [("data", .null)])).2 = .error (.keyError "success") :=
  rfl

/-- C9 amended: the success field is the sole success signal when it is
present: get_telemetry returns true exactly when the body holds a success
value that Python compares equal to True, returns false for any other
present value, raises KeyError when the key is absent, and propagates a
transport or auth failure as the exception itself. -/
theorem get_telemetry_success_signal (serial : String)
    (resp : Except Exc (List (String × JVal))) :
    (∀ e, resp = .error e → (get_telemetry serial resp).2 = .error e) ∧
    (∀ json v, resp = .ok json → json.lookup "success" = some v →
      (get_telemetry serial resp).2 = .ok v.pyEqTrue) ∧
    (∀ json, resp = .ok json → json.lookup "success" = none →
      (get_telemetry serial resp).2 = .error (.keyError "success")) ∧
    ((get_telemetry serial resp).2 = .ok true ↔
      ∃ json v, resp = .ok json ∧ json.lookup "success" = some v ∧
        v.pyEqTrue = true) := by
  refine ⟨?_, ?_, ?_, ?_⟩
  · rintro e rfl; rfl
  · rintro json v rfl hv; simp [get_telemetry, command_result, hv]
  · rintro json rfl hv; simp [get_telemetry, command_result, hv]
  · cases resp with
    | error e => simp [get_telemetry, command_result]
    | ok json =>
      cases hv : json.lookup "success" with
      | none =>
        simp [get_telemetry, command_result, hv]
      | some v =>
        simp only [get_telemetry, command_result, hv]
        constructor
        · intro hok
          exact ⟨json, v, rfl, hv, by simpa using hok⟩
        · rintro ⟨json2, v2, hj, hv2, htrue⟩
          cases hj
          rw [hv] at hv2
          cases hv2
          simp [htrue]

/-- C9 witness: a success value of True yields true, the integer 0 yields
false, and a transport failure propagates. -/
theorem get_telemetry_success_signal_witness :
    (get_telemetry "S" (.ok [("success", .bool true)])).2 = .ok true ∧
    (get_telemetry "S" (.ok [("success", .int 0)])).2 = .ok false ∧
    (get_telemetry "S" (.error .notAuthedError)).2 = .error .notAuthedError :=
  ⟨(get_telemetry_success_signal "S" (.ok [("success", .bool true)])).2.1
      [("success", .bool true)] (.bool true) rfl rfl,
   (get_telemetry_success_signal "S" (.ok [("success", .int 0)])).2.1
      [("success", .int 0)] (.int 0) rfl rfl,
   (get_telemetry_success_signal "S" (.error .notAuthedError)).1 .notAuthedError rfl⟩

end Culligan
